import Mathlib

/-!
Verification of the WhisperAPI transport client (Go).

The development shallowly embeds the client found in
src/golang/whisper_client.go (the mutex-and-metrics variant, called the
"primary" variant below) and, where a claim refers to it, the exchange-channel
variant found in src/unnamed/part_001.  Pure computations (the wire framing,
the dial-retry loop, request construction) are translated directly; the
network, the filesystem and JSON (de)serialization are modelled as outcome
oracles supplied to each call, and each operation returns its result, the
updated client state and the trace of network events it performed.
-/

/-! ### Frame codec

The client frames every message as an 8-byte unsigned big-endian length
prefix followed by the raw payload (whisper_client.go lines 188-219 for the
request side, lines 206-218 for the response side).  Bytes are modelled as
natural numbers below 256. -/

/-- Big-endian 8-byte encoding of a length, as built by
binary.BigEndian.PutUint64 (whisper_client.go line 191). -/
def putUint64BE (n : Nat) : List Nat :=
  [n / 2 ^ 56 % 256, n / 2 ^ 48 % 256, n / 2 ^ 40 % 256, n / 2 ^ 32 % 256,
   n / 2 ^ 24 % 256, n / 2 ^ 16 % 256, n / 2 ^ 8 % 256, n % 256]

/-- Big-endian value of a byte list, as read by binary.BigEndian.Uint64
(whisper_client.go line 213). -/
def beValue (bs : List Nat) : Nat :=
  bs.foldl (fun acc b => acc * 256 + b) 0

/-- Frame encoding: the 8-byte length prefix followed by the payload
(whisper_client.go lines 188-202: header then requestJSON are written). -/
def encodeFrame (payload : List Nat) : List Nat :=
  putUint64BE payload.length ++ payload

/-- Frame decoding: read exactly 8 header bytes, interpret them as an
unsigned 64-bit big-endian length, then read exactly that many payload
bytes (whisper_client.go lines 206-218).  A short stream is a decode
failure; the remainder of the stream is returned alongside the payload. -/
def decodeFrame (stream : List Nat) : Option (List Nat × List Nat) :=
  if stream.length < 8 then none
  else
    let n := beValue (stream.take 8)
    let rest := stream.drop 8
    if rest.length < n then none
    else some (rest.take n, rest.drop n)

theorem beValue_putUint64BE (n : Nat) : beValue (putUint64BE n) = n % 2 ^ 64 := by
  simp only [putUint64BE, beValue, List.foldl]
  omega

theorem length_putUint64BE (n : Nat) : (putUint64BE n).length = 8 := rfl

/-- C4: for any payload of size at most 2^32 - 1, decoding the frame produced
by encoding the payload yields the original payload (and consumes exactly the
frame, leaving any trailing stream bytes untouched). -/
theorem frame_roundtrip (payload rest : List Nat)
    (h : payload.length ≤ 2 ^ 32 - 1) :
    decodeFrame (encodeFrame payload ++ rest) = some (payload, rest) := by
  have hlen : (putUint64BE payload.length).length = 8 := rfl
  have hbe : beValue (putUint64BE payload.length) = payload.length := by
    rw [beValue_putUint64BE]
    exact Nat.mod_eq_of_lt (by omega)
  simp only [encodeFrame, decodeFrame, List.append_assoc]
  rw [List.take_left' hlen, List.drop_left' hlen, hbe]
  have h8 : ¬ ((putUint64BE payload.length ++ (payload ++ rest)).length < 8) := by
    simp [List.length_append, hlen]
  rw [if_neg h8]
  have hpl : ¬ ((payload ++ rest).length < payload.length) := by
    simp [List.length_append]
  rw [if_neg hpl, List.take_left' rfl, List.drop_left' rfl]

/-- C4 witness: the round trip at a concrete payload and trailing stream. -/
theorem frame_roundtrip_witness :
    decodeFrame (encodeFrame [1, 2, 3] ++ [4]) = some ([1, 2, 3], [4]) :=
  frame_roundtrip [1, 2, 3] [4] (by decide)

/-- C10: the response decoder enforces no upper bound on the advertised frame
length: for every 8-byte header it demands exactly the full unsigned 64-bit
big-endian value as payload length (succeeding exactly when the stream holds
at least that many bytes), and that value reaches 2^64 - 1 for the all-ones
header, with no sanity cap anywhere. -/
theorem decode_no_length_bound (header stream : List Nat)
    (h : header.length = 8) :
    decodeFrame (header ++ stream) =
      (if stream.length < beValue header then none
       else some (stream.take (beValue header), stream.drop (beValue header)))
    ∧ beValue (List.replicate 8 255) = 2 ^ 64 - 1 := by
  constructor
  · have h8 : ¬ ((header ++ stream).length < 8) := by
      simp [List.length_append, h]
    simp only [decodeFrame]
    rw [if_neg h8, List.take_left' h, List.drop_left' h]
  · decide

/-- C10 witness: a concrete header advertising length 2 demands exactly two
payload bytes. -/
theorem decode_no_length_bound_witness :
    decodeFrame ([0, 0, 0, 0, 0, 0, 0, 2] ++ [9, 9]) =
      (if ([9, 9] : List Nat).length < beValue [0, 0, 0, 0, 0, 0, 0, 2] then none
       else some (([9, 9] : List Nat).take (beValue [0, 0, 0, 0, 0, 0, 0, 2]),
                  ([9, 9] : List Nat).drop (beValue [0, 0, 0, 0, 0, 0, 0, 2])))
    ∧ beValue (List.replicate 8 255) = 2 ^ 64 - 1 :=
  decode_no_length_bound [0, 0, 0, 0, 0, 0, 0, 2] [9, 9] rfl

/-! ### Client state, environment oracles and network event traces

The client owns a host/port (irrelevant to the verified properties), a
stored connection handle and the three metric counters
(whisper_client.go lines 22-36).  Connections are identified by numeric
ids; the stored handle is an Option: none models a nil conn. -/

/-- Metrics of the client: three monotone counters updated atomically
(whisper_client.go lines 31-36). -/
structure Metrics where
  requestsTotal : Nat
  errorsTotal : Nat
  processingTimeMs : Nat
deriving DecidableEq

/-- Mutable state of one client instance: the stored connection (none models
a nil conn field) and the metrics (whisper_client.go lines 22-29). -/
structure ClientState where
  conn : Option Nat
  metrics : Metrics
deriving DecidableEq

/-- Network events a call can perform, tagged by the id of the connection
they touch.  A wireWrite/wireRead is one Write/ReadFull on that socket; a
dial opens it and closeConn closes it. -/
inductive NetEv
  | dial (id : Nat)
  | wireWrite (id : Nat)
  | wireRead (id : Nat)
  | closeConn (id : Nat)
deriving DecidableEq

/-- Errors a call can surface, mirroring the return paths of
whisper_client.go: path-resolution failure and the missing-file check
(lines 236-244), dial exhaustion (line 136), write/read failures
(lines 195-218), json.Unmarshal failure and a non-empty response error
field (lines 151-161), and a done context (lines 327-329). -/
inductive CallError
  | absPathFailed
  | fileNotFound
  | connectFailed
  | writeFailed
  | readFailed
  | decodeFailed
  | appError (msg : String)
  | contextCanceled
deriving DecidableEq

instance {ε α : Type} [DecidableEq ε] [DecidableEq α] : DecidableEq (Except ε α) := fun a b =>
  match a, b with
  | .error x, .error y =>
    if h : x = y then .isTrue (h ▸ rfl)
    else .isFalse (fun hh => h (by injection hh))
  | .ok x, .ok y =>
    if h : x = y then .isTrue (h ▸ rfl)
    else .isFalse (fun hh => h (by injection hh))
  | .error _, .ok _ => .isFalse (fun hh => by injection hh)
  | .ok _, .error _ => .isFalse (fun hh => by injection hh)

/-- Result of the transport layer: the raw response on success (abstracted by
its parse outcome, see SendEnv.reply), the client state after the call and
the trace of network events performed. -/
structure SendResult where
  result : Except CallError (Option String)
  state : ClientState
  trace : List NetEv
deriving DecidableEq

/-- Result of a facade operation.  The decoded response carries nothing the
verified properties inspect beyond success, so it is elided to Unit. -/
structure CallResult where
  result : Except CallError Unit
  state : ClientState
  trace : List NetEv
deriving DecidableEq

/-- Environment oracle for one sendRequest call: the outcome of each dial
attempt ensureConnection may make, the id the fresh socket would get, the
outcome of each of the four I/O steps, the parse outcome of the delivered
response bytes (none models bytes json.Unmarshal rejects; some e models a
well-formed response whose error field holds e, empty meaning success), and
the wall-clock duration charged to processingTimeMs. -/
structure SendEnv where
  dials : Nat → Bool
  newConnId : Nat
  writeHeaderOk : Bool
  writeBodyOk : Bool
  readHeaderOk : Bool
  readBodyOk : Bool
  reply : Option String
  durationMs : Nat

/-- Maximum dial attempts of ensureConnection (whisper_client.go line 41). -/
def maxRetries : Nat := 3

/-- Outcome of the dial-retry loop: the connection field as ensureConnection
leaves it (none means every attempt failed and the error at line 136 is
returned), the number of dial attempts made and the number of backoff
sleeps taken. -/
structure DialResult where
  newConn : Option Nat
  attempts : Nat
  sleeps : Nat
deriving DecidableEq

/-- The retry loop of ensureConnection (whisper_client.go lines 119-134):
at index i it dials; on success it returns at once, otherwise it sleeps the
fixed backoff when i < maxRetries - 1 and retries.  The first argument is
the number of remaining iterations, structurally decreasing. -/
def dialLoop (dials : Nat → Bool) (newId : Nat) : Nat → Nat → DialResult
  | 0, _ => ⟨none, 0, 0⟩
  | remaining + 1, i =>
    if dials i then ⟨some newId, 1, 0⟩
    else
      let r := dialLoop dials newId remaining (i + 1)
      ⟨r.newConn, r.attempts + 1, r.sleeps + (if i < maxRetries - 1 then 1 else 0)⟩

/-- ensureConnection (whisper_client.go lines 111-137): returns immediately
when a connection is already stored, otherwise runs the dial-retry loop.
newConn = none models the error return at line 136 with c.conn left nil. -/
def ensureConnection (conn : Option Nat) (dials : Nat → Bool) (newId : Nat) : DialResult :=
  match conn with
  | some c => ⟨some c, 0, 0⟩
  | none => dialLoop dials newId maxRetries 0

/-- The connection available to sendRequest after its ensureConnection call
(whisper_client.go line 178). -/
def connAfterEnsure (conn : Option Nat) (env : SendEnv) : Option Nat :=
  (ensureConnection conn env.dials env.newConnId).newConn

/-- C5: against an unreachable backend, ensureConnection makes exactly 3 dial
attempts with a backoff sleep between consecutive attempts but none after the
last, then reports failure with the connection left absent; if the attempt at
index k is the first to succeed it returns at once with the connection open,
having made k+1 attempts and k sleeps; and with a connection already stored
it returns it immediately with no attempt. -/
theorem ensureConnection_retry_spec (dials : Nat → Bool) (newId : Nat) :
    ((∀ i, i < 3 → dials i = false) →
       ensureConnection none dials newId = ⟨none, 3, 2⟩)
    ∧ (∀ k, k < 3 → (∀ i, i < k → dials i = false) → dials k = true →
       ensureConnection none dials newId = ⟨some newId, k + 1, k⟩)
    ∧ (∀ c, ensureConnection (some c) dials newId = ⟨some c, 0, 0⟩) := by
  refine ⟨fun h => ?_, fun k hk hbefore hk' => ?_, fun c => rfl⟩
  · have h0 := h 0 (by omega)
    have h1 := h 1 (by omega)
    have h2 := h 2 (by omega)
    simp [ensureConnection, maxRetries, dialLoop, h0, h1, h2]
  · interval_cases k
    · simp [ensureConnection, maxRetries, dialLoop, hk']
    · have h0 := hbefore 0 (by omega)
      simp [ensureConnection, maxRetries, dialLoop, h0, hk']
    · have h0 := hbefore 0 (by omega)
      have h1 := hbefore 1 (by omega)
      simp [ensureConnection, maxRetries, dialLoop, h0, h1, hk']

/-- C5 witness: all dials failing gives 3 attempts, 2 sleeps, no connection;
a first-attempt success gives 1 attempt, no sleep, an open connection. -/
theorem ensureConnection_retry_spec_witness :
    ensureConnection none (fun _ => false) 7 = ⟨none, 3, 2⟩
    ∧ ensureConnection none (fun _ => true) 7 = ⟨some 7, 1, 0⟩ :=
  ⟨(ensureConnection_retry_spec (fun _ => false) 7).1 (fun _ _ => rfl),
   (ensureConnection_retry_spec (fun _ => true) 7).2.1 0 (by omega)
     (fun i hi => absurd hi (by omega)) rfl⟩

/-! ### Transport layer of the primary variant -/

/-- sendRequest (whisper_client.go lines 167-222): bump requestsTotal, ensure
a connection (on failure return with the conn left absent), write the header
and body, read the response header and body; any I/O failure closes the
connection (sets it absent) and returns the error, success stores the
connection for reuse and returns the response bytes.  The deferred block at
lines 171-175 adds the call duration to processingTimeMs on every path.
Failed writes and reads are still recorded as wire events on the connection
the call used.  json.Marshal of the fixed request structs cannot fail and
has no failure oracle. -/
def sendRequest (st : ClientState) (env : SendEnv) : SendResult :=
  let mDone : Metrics :=
    { requestsTotal := st.metrics.requestsTotal + 1
      errorsTotal := st.metrics.errorsTotal
      processingTimeMs := st.metrics.processingTimeMs + env.durationMs }
  match connAfterEnsure st.conn env with
  | none => ⟨.error .connectFailed, ⟨none, mDone⟩, []⟩
  | some cid =>
    let dialTr : List NetEv := if st.conn = none then [.dial cid] else []
    if env.writeHeaderOk then
      if env.writeBodyOk then
        if env.readHeaderOk then
          if env.readBodyOk then
            ⟨.ok env.reply, ⟨some cid, mDone⟩,
             dialTr ++ [.wireWrite cid, .wireWrite cid, .wireRead cid, .wireRead cid]⟩
          else
            ⟨.error .readFailed, ⟨none, mDone⟩,
             dialTr ++ [.wireWrite cid, .wireWrite cid, .wireRead cid, .wireRead cid, .closeConn cid]⟩
        else
          ⟨.error .readFailed, ⟨none, mDone⟩,
           dialTr ++ [.wireWrite cid, .wireWrite cid, .wireRead cid, .closeConn cid]⟩
      else
        ⟨.error .writeFailed, ⟨none, mDone⟩,
         dialTr ++ [.wireWrite cid, .wireWrite cid, .closeConn cid]⟩
    else
      ⟨.error .writeFailed, ⟨none, mDone⟩,
       dialTr ++ [.wireWrite cid, .closeConn cid]⟩

/-- handleResponse (whisper_client.go lines 151-164): a response that fails
to unmarshal bumps errorsTotal and surfaces a decode error; a well-formed
response with a non-empty error field bumps errorsTotal and surfaces that
application error; otherwise the response is returned with no metric
update. -/
def handleResponse (m : Metrics) (responseData : Option String) :
    Except CallError Unit × Metrics :=
  match responseData with
  | none => (.error .decodeFailed, { m with errorsTotal := m.errorsTotal + 1 })
  | some e =>
    if e ≠ "" then (.error (.appError e), { m with errorsTotal := m.errorsTotal + 1 })
    else (.ok (), m)

/-- Environment oracle for one sendRequestWithContext call: the outcome of
its single fresh dial, the id of the fresh socket, the four I/O outcomes,
the parse outcome of the delivered response and the duration charged. -/
structure CtxSendEnv where
  dialOk : Bool
  freshId : Nat
  writeHeaderOk : Bool
  writeBodyOk : Bool
  readHeaderOk : Bool
  readBodyOk : Bool
  reply : Option String
  durationMs : Nat

/-- sendRequestWithContext (whisper_client.go lines 272-323): bump
requestsTotal, ignore the context argument (it is discarded at line 272),
dial a fresh per-call connection with a single attempt and no retry, write
and read on it, and close it on return (the defer at line 293) whatever the
outcome.  The stored connection of the client is never touched. -/
def sendRequestWithContext (st : ClientState) (env : CtxSendEnv) : SendResult :=
  let mDone : Metrics :=
    { requestsTotal := st.metrics.requestsTotal + 1
      errorsTotal := st.metrics.errorsTotal
      processingTimeMs := st.metrics.processingTimeMs + env.durationMs }
  if env.dialOk then
    let cid := env.freshId
    if env.writeHeaderOk then
      if env.writeBodyOk then
        if env.readHeaderOk then
          if env.readBodyOk then
            ⟨.ok env.reply, ⟨st.conn, mDone⟩,
             [.dial cid, .wireWrite cid, .wireWrite cid, .wireRead cid, .wireRead cid, .closeConn cid]⟩
          else
            ⟨.error .readFailed, ⟨st.conn, mDone⟩,
             [.dial cid, .wireWrite cid, .wireWrite cid, .wireRead cid, .wireRead cid, .closeConn cid]⟩
        else
          ⟨.error .readFailed, ⟨st.conn, mDone⟩,
           [.dial cid, .wireWrite cid, .wireWrite cid, .wireRead cid, .closeConn cid]⟩
      else
        ⟨.error .writeFailed, ⟨st.conn, mDone⟩,
         [.dial cid, .wireWrite cid, .wireWrite cid, .closeConn cid]⟩
    else
      ⟨.error .writeFailed, ⟨st.conn, mDone⟩,
       [.dial cid, .wireWrite cid, .closeConn cid]⟩
  else ⟨.error .connectFailed, ⟨st.conn, mDone⟩, []⟩

/-! ### Facade operations of the primary variant -/

/-- Environment oracle for Transcribe: the outcome of filepath.Abs (none
models failure, some p the resolved absolute path), whether os.Stat finds
the file, and the oracle of the network phase. -/
structure TranscribeEnv where
  absPath : Option String
  fileExists : Bool
  send : CtxSendEnv

/-- Transcribe (whisper_client.go lines 234-269): resolve the path and check
the file exists, returning before any network work when either fails; then
send the request through sendRequestWithContext (a fresh per-call dial) and
hand the response to handleResponse.  Request construction, including the
language normalization at lines 247-249, is modelled by buildFileRequest
below; it has no effect on state, metrics or trace. -/
def Transcribe (st : ClientState) (env : TranscribeEnv) : CallResult :=
  match env.absPath with
  | none => ⟨.error .absPathFailed, st, []⟩
  | some _ =>
    if env.fileExists then
      let r := sendRequestWithContext st env.send
      match r.result with
      | .error e => ⟨.error e, r.state, r.trace⟩
      | .ok data =>
        let hr := handleResponse r.state.metrics data
        ⟨hr.1, { r.state with metrics := hr.2 }, r.trace⟩
    else ⟨.error .fileNotFound, st, []⟩

/-- TranscribeWithContext (whisper_client.go lines 326-333): when the
caller's context is already done at entry, return its error and do nothing;
otherwise behave exactly as Transcribe.  The context is never consulted
again: sendRequestWithContext discards its context parameter, so later
cancellation cannot affect the in-flight call. -/
def TranscribeWithContext (ctxDone : Bool) (st : ClientState) (env : TranscribeEnv) : CallResult :=
  if ctxDone then ⟨.error .contextCanceled, st, []⟩
  else Transcribe st env

/-- TranscribeData (whisper_client.go lines 336-359): base64-encode the data
into the request (modelled by buildDataRequest below, including the language
normalization at lines 338-340), send it through sendRequest on the stored
connection, and hand the response to handleResponse. -/
def TranscribeData (st : ClientState) (env : SendEnv) : CallResult :=
  let r := sendRequest st env
  match r.result with
  | .error e => ⟨.error e, r.state, r.trace⟩
  | .ok data =>
    let hr := handleResponse r.state.metrics data
    ⟨hr.1, { r.state with metrics := hr.2 }, r.trace⟩

/-- TranscribeDataWithContext (whisper_client.go lines 362-369): same
entry-only context check as TranscribeWithContext, then exactly
TranscribeData. -/
def TranscribeDataWithContext (ctxDone : Bool) (st : ClientState) (env : SendEnv) : CallResult :=
  if ctxDone then ⟨.error .contextCanceled, st, []⟩
  else TranscribeData st env

/-- ListModels (whisper_client.go lines 372-392): send the list_models
request through sendRequest, then unmarshal inline and check the error
field; unlike handleResponse this path never touches errorsTotal. -/
def ListModels (st : ClientState) (env : SendEnv) : CallResult :=
  let r := sendRequest st env
  match r.result with
  | .error e => ⟨.error e, r.state, r.trace⟩
  | .ok data =>
    match data with
    | none => ⟨.error .decodeFailed, r.state, r.trace⟩
    | some e =>
      if e ≠ "" then ⟨.error (.appError e), r.state, r.trace⟩
      else ⟨.ok (), r.state, r.trace⟩

/-! ### Request construction and language normalization

Go encodes these structs with encoding/json.  The language field is a
*string tagged json:"language,omitempty": omitempty omits a nil pointer but
emits a non-nil pointer even when it points at the empty string, so the
field is absent from the encoded request exactly when the Option is none. -/

/-- FileTranscriptionRequest (whisper_client.go lines 47-53). -/
structure FileTranscriptionRequest where
  command : String
  audioPath : String
  model : String
  language : Option String
  task : String
deriving DecidableEq

/-- DataTranscriptionRequest (whisper_client.go lines 55-61). -/
structure DataTranscriptionRequest where
  command : String
  audioData : String
  model : String
  language : Option String
  task : String
deriving DecidableEq

/-- Whether the encoded JSON object carries a language field at all:
omitempty drops only the nil pointer. -/
def jsonHasLanguageField (language : Option String) : Bool :=
  language.isSome

/-- Request construction of Transcribe in the primary variant
(whisper_client.go lines 246-257): an empty-string language is first
normalized to nil, then the struct is built from the resolved absolute
path. -/
def buildFileRequest (absPath model : String) (language : Option String)
    (task : String) : FileTranscriptionRequest :=
  let language := if language = some "" then none else language
  ⟨"transcribe", absPath, model, language, task⟩

/-- Request construction of TranscribeData in the primary variant
(whisper_client.go lines 337-351): the same normalization, then the struct
carries the base64-encoded audio bytes. -/
def buildDataRequest (encodedData model : String) (language : Option String)
    (task : String) : DataTranscriptionRequest :=
  let language := if language = some "" then none else language
  ⟨"transcribe", encodedData, model, language, task⟩

/-- TranscriptionRequest of the exchange-channel variant
(src/unnamed/part_001 lines 31-38), which carries both path and data
fields. -/
structure P1_TranscriptionRequest where
  command : String
  audioPath : String
  audioData : String
  model : String
  language : Option String
  task : String
deriving DecidableEq

/-- Request construction of Transcribe in the exchange-channel variant
(src/unnamed/part_001 lines 151-164): the language parameter is passed into
the struct unchanged; no normalization takes place. -/
def P1_buildFileRequest (absPath model : String) (language : Option String)
    (task : String) : P1_TranscriptionRequest :=
  ⟨"transcribe", absPath, "", model, language, task⟩

/-- Request construction of TranscribeData in the exchange-channel variant
(src/unnamed/part_001 lines 184-194): again no normalization. -/
def P1_buildDataRequest (encodedData model : String) (language : Option String)
    (task : String) : P1_TranscriptionRequest :=
  ⟨"transcribe", "", encodedData, model, language, task⟩

/-- C6 counterexample: in the exchange-channel variant (src/unnamed/part_001,
cited by the claim), a transcription request built from an empty-string
language parameter carries the language field with the empty-string value in
its encoding, so the claimed normalization does not happen on every
transcription call. -/
theorem p1_empty_language_field :
    (P1_buildFileRequest "/tmp/a.wav" "base" (some "") "transcribe").language = some ""
    ∧ jsonHasLanguageField
        (P1_buildFileRequest "/tmp/a.wav" "base" (some "") "transcribe").language = true
    ∧ (P1_buildDataRequest "QUJD" "base" (some "") "transcribe").language = some "" := by
  exact ⟨rfl, rfl, rfl⟩

/-- C6 (amended): in the primary variant both Transcribe and TranscribeData
normalize an empty-string language to absent before encoding, so their
encoded requests never carry an empty-string language field and an absent
language yields no field; the exchange-channel variant performs no such
normalization. -/
theorem language_normalization (absPath model task encodedData : String)
    (l : Option String) :
    (buildFileRequest absPath model l task).language ≠ some ""
    ∧ (buildDataRequest encodedData model l task).language ≠ some ""
    ∧ (l = some "" →
        (buildFileRequest absPath model l task).language = none
        ∧ (buildDataRequest encodedData model l task).language = none)
    ∧ (l = none →
        jsonHasLanguageField (buildFileRequest absPath model l task).language = false
        ∧ jsonHasLanguageField (buildDataRequest encodedData model l task).language = false) := by
  rcases l with _ | s
  · simp [buildFileRequest, buildDataRequest, jsonHasLanguageField]
  · by_cases hs : s = "" <;>
      simp [buildFileRequest, buildDataRequest, jsonHasLanguageField, hs]

/-- C6 witness: the amended statement at concrete inputs, both for the
empty-string case and the absent case. -/
theorem language_normalization_witness :
    (buildFileRequest "/tmp/a.wav" "base" (some "") "transcribe").language = none
    ∧ (buildDataRequest "QUJD" "base" (some "") "transcribe").language = none :=
  (language_normalization "/tmp/a.wav" "base" "transcribe" "QUJD" (some "")).2.2.1 rfl

/-! ### Metrics accounting -/

/-- Whether a facade outcome is one of the two failures handleResponse
counts: a decode failure or an application error. -/
def countsAsError : Except CallError Unit → Bool
  | .error .decodeFailed => true
  | .error (.appError _) => true
  | _ => false

/-- The transport-level analogue of countsAsError. -/
def rawCountsAsError : Except CallError (Option String) → Bool
  | .error .decodeFailed => true
  | .error (.appError _) => true
  | _ => false

theorem countsAsError_error (e : CallError) :
    countsAsError (.error e) = rawCountsAsError (.error e) := by
  cases e <;> rfl

theorem sendRequest_metrics (st : ClientState) (env : SendEnv) :
    (sendRequest st env).state.metrics.requestsTotal = st.metrics.requestsTotal + 1
    ∧ (sendRequest st env).state.metrics.errorsTotal = st.metrics.errorsTotal := by
  rcases hc : connAfterEnsure st.conn env with _ | cid
  · simp [sendRequest, hc]
  · simp only [sendRequest, hc]
    cases env.writeHeaderOk <;> cases env.writeBodyOk <;>
      cases env.readHeaderOk <;> cases env.readBodyOk <;> simp

theorem sendRequest_raw (st : ClientState) (env : SendEnv) :
    rawCountsAsError (sendRequest st env).result = false := by
  rcases hc : connAfterEnsure st.conn env with _ | cid
  · simp [sendRequest, hc, rawCountsAsError]
  · simp only [sendRequest, hc]
    cases env.writeHeaderOk <;> cases env.writeBodyOk <;>
      cases env.readHeaderOk <;> cases env.readBodyOk <;> simp [rawCountsAsError]

theorem sendRequestWithContext_metrics (st : ClientState) (env : CtxSendEnv) :
    (sendRequestWithContext st env).state.metrics.requestsTotal = st.metrics.requestsTotal + 1
    ∧ (sendRequestWithContext st env).state.metrics.errorsTotal = st.metrics.errorsTotal
    ∧ (sendRequestWithContext st env).state.conn = st.conn := by
  simp only [sendRequestWithContext]
  cases env.dialOk <;> cases env.writeHeaderOk <;> cases env.writeBodyOk <;>
    cases env.readHeaderOk <;> cases env.readBodyOk <;> simp

theorem sendRequestWithContext_raw (st : ClientState) (env : CtxSendEnv) :
    rawCountsAsError (sendRequestWithContext st env).result = false := by
  simp only [sendRequestWithContext]
  cases env.dialOk <;> cases env.writeHeaderOk <;> cases env.writeBodyOk <;>
    cases env.readHeaderOk <;> cases env.readBodyOk <;> simp [rawCountsAsError]

theorem handleResponse_metrics (m : Metrics) (d : Option String) :
    (handleResponse m d).2.requestsTotal = m.requestsTotal
    ∧ (handleResponse m d).2.errorsTotal
        = m.errorsTotal + (if countsAsError (handleResponse m d).1 then 1 else 0) := by
  rcases d with _ | e
  · simp [handleResponse, countsAsError]
  · by_cases he : e = "" <;> simp [handleResponse, he, countsAsError]

/-- Client with no stored connection and zeroed counters, as NewWhisperClient
builds it (whisper_client.go lines 88-108). -/
def st0 : ClientState := ⟨none, ⟨0, 0, 0⟩⟩

/-- Environment in which every dial and every I/O step succeeds and the
backend answers with a well-formed response whose error field says the model
was not found. -/
def envLM : SendEnv :=
  ⟨fun _ => true, 5, true, true, true, true, some "model not found", 0⟩

/-- Transcribe environment whose path resolution fails. -/
def envAbsFail : TranscribeEnv :=
  ⟨none, true, ⟨true, 1, true, true, true, true, some "", 0⟩⟩

/-- C2 counterexample: a ListModels call that fails with a response carrying
a non-empty error field increments errorsTotal by 0, not 1; and a Transcribe
call whose path resolution fails increments requestsTotal by 0, not 1. -/
theorem metrics_claim_counterexample :
    (ListModels st0 envLM).result = .error (.appError "model not found")
    ∧ (ListModels st0 envLM).state.metrics.errorsTotal = 0
    ∧ (Transcribe st0 envAbsFail).result = .error .absPathFailed
    ∧ (Transcribe st0 envAbsFail).state.metrics.requestsTotal = 0 := by
  exact ⟨rfl, rfl, rfl, rfl⟩

/-- C2 (amended): requestsTotal increases by exactly 1 per call that reaches
the send layer — TranscribeData and ListModels always, Transcribe only when
path resolution and the existence check pass, else by 0.  errorsTotal
increases by exactly 1 exactly when a Transcribe or TranscribeData response
fails to decode or carries a non-empty error field, and by 0 on every other
outcome; connection-establishment and write/read failures, and every
ListModels failure of any kind, leave errorsTotal unchanged. -/
theorem metrics_increments (st : ClientState) (envS envL : SendEnv)
    (envT : TranscribeEnv) :
    ((TranscribeData st envS).state.metrics.requestsTotal
        = st.metrics.requestsTotal + 1)
    ∧ ((TranscribeData st envS).state.metrics.errorsTotal
        = st.metrics.errorsTotal
          + (if countsAsError (TranscribeData st envS).result then 1 else 0))
    ∧ ((ListModels st envL).state.metrics.requestsTotal
        = st.metrics.requestsTotal + 1)
    ∧ ((ListModels st envL).state.metrics.errorsTotal = st.metrics.errorsTotal)
    ∧ ((Transcribe st envT).state.metrics.requestsTotal
        = st.metrics.requestsTotal
          + (if envT.absPath.isSome && envT.fileExists then 1 else 0))
    ∧ ((Transcribe st envT).state.metrics.errorsTotal
        = st.metrics.errorsTotal
          + (if countsAsError (Transcribe st envT).result then 1 else 0)) := by
  refine ⟨?_, ?_, ?_, ?_, ?_, ?_⟩
  · have hm := sendRequest_metrics st envS
    rcases hr : (sendRequest st envS).result with e | data
    · simp [TranscribeData, hr, hm.1]
    · have hh := handleResponse_metrics (sendRequest st envS).state.metrics data
      simp [TranscribeData, hr, hh.1, hm.1]
  · have hm := sendRequest_metrics st envS
    rcases hr : (sendRequest st envS).result with e | data
    · have hraw := sendRequest_raw st envS
      rw [hr] at hraw
      simp [TranscribeData, hr, hm.2, countsAsError_error, hraw]
    · have hh := handleResponse_metrics (sendRequest st envS).state.metrics data
      simp [TranscribeData, hr, hh.2, hm.2]
  · have hm := sendRequest_metrics st envL
    rcases hr : (sendRequest st envL).result with e | data
    · simp [ListModels, hr, hm.1]
    · rcases data with _ | s
      · simp [ListModels, hr, hm.1]
      · by_cases hs : s = "" <;> simp [ListModels, hr, hs, hm.1]
  · have hm := sendRequest_metrics st envL
    rcases hr : (sendRequest st envL).result with e | data
    · simp [ListModels, hr, hm.2]
    · rcases data with _ | s
      · simp [ListModels, hr, hm.2]
      · by_cases hs : s = "" <;> simp [ListModels, hr, hs, hm.2]
  · rcases hp : envT.absPath with _ | p
    · simp [Transcribe, hp, countsAsError]
    · cases hf : envT.fileExists
      · simp [Transcribe, hp, hf, countsAsError]
      · have hm := sendRequestWithContext_metrics st envT.send
        rcases hr : (sendRequestWithContext st envT.send).result with e | data
        · simp [Transcribe, hp, hf, hr, hm.1]
        · have hh := handleResponse_metrics (sendRequestWithContext st envT.send).state.metrics data
          simp [Transcribe, hp, hf, hr, hh.1, hm.1]
  · rcases hp : envT.absPath with _ | p
    · simp [Transcribe, hp, countsAsError]
    · cases hf : envT.fileExists
      · simp [Transcribe, hp, hf, countsAsError]
      · have hm := sendRequestWithContext_metrics st envT.send
        rcases hr : (sendRequestWithContext st envT.send).result with e | data
        · have hraw := sendRequestWithContext_raw st envT.send
          rw [hr] at hraw
          simp [Transcribe, hp, hf, hr, hm.2.1, countsAsError_error, hraw]
        · have hh := handleResponse_metrics (sendRequestWithContext st envT.send).state.metrics data
          simp [Transcribe, hp, hf, hr, hh.2, hm.2.1]

/-! ### Connection usage -/

theorem sendRequest_trace_conn (st : ClientState) (env : SendEnv) (i : Nat)
    (h : NetEv.wireWrite i ∈ (sendRequest st env).trace
      ∨ NetEv.wireRead i ∈ (sendRequest st env).trace) :
    connAfterEnsure st.conn env = some i := by
  rcases hc : connAfterEnsure st.conn env with _ | cid
  · simp [sendRequest, hc] at h
  · simp only [sendRequest, hc] at h
    cases hwh : env.writeHeaderOk <;> cases hwb : env.writeBodyOk <;>
      cases hrh : env.readHeaderOk <;> cases hrb : env.readBodyOk <;>
      cases hsc : st.conn <;> simp_all

theorem TranscribeData_trace (st : ClientState) (env : SendEnv) :
    (TranscribeData st env).trace = (sendRequest st env).trace := by
  rcases hr : (sendRequest st env).result with e | data <;> simp [TranscribeData, hr]

theorem ListModels_trace (st : ClientState) (env : SendEnv) :
    (ListModels st env).trace = (sendRequest st env).trace := by
  rcases hr : (sendRequest st env).result with e | data
  · simp [ListModels, hr]
  · rcases data with _ | s
    · simp [ListModels, hr]
    · by_cases hs : s = "" <;> simp [ListModels, hr, hs]

theorem sendRequestWithContext_trace_conn (st : ClientState) (env : CtxSendEnv) (i : Nat)
    (h : NetEv.wireWrite i ∈ (sendRequestWithContext st env).trace
      ∨ NetEv.wireRead i ∈ (sendRequestWithContext st env).trace) :
    i = env.freshId := by
  simp only [sendRequestWithContext] at h
  cases hd : env.dialOk <;> cases hwh : env.writeHeaderOk <;>
    cases hwb : env.writeBodyOk <;> cases hrh : env.readHeaderOk <;>
    cases hrb : env.readBodyOk <;> simp_all

theorem Transcribe_trace_conn (st : ClientState) (envT : TranscribeEnv) (i : Nat)
    (h : NetEv.wireWrite i ∈ (Transcribe st envT).trace
      ∨ NetEv.wireRead i ∈ (Transcribe st envT).trace) :
    i = envT.send.freshId := by
  rcases hp : envT.absPath with _ | p
  · simp [Transcribe, hp] at h
  · cases hf : envT.fileExists
    · simp [Transcribe, hp, hf] at h
    · have htr : (Transcribe st envT).trace = (sendRequestWithContext st envT.send).trace := by
        rcases hr : (sendRequestWithContext st envT.send).result with e | d <;>
          simp [Transcribe, hp, hf, hr]
      rw [htr] at h
      exact sendRequestWithContext_trace_conn st envT.send i h

theorem Transcribe_conn (st : ClientState) (envT : TranscribeEnv) :
    (Transcribe st envT).state.conn = st.conn := by
  rcases hp : envT.absPath with _ | p
  · simp [Transcribe, hp]
  · cases hf : envT.fileExists
    · simp [Transcribe, hp, hf]
    · have hm := (sendRequestWithContext_metrics st envT.send).2.2
      rcases hr : (sendRequestWithContext st envT.send).result with e | d <;>
        simp [Transcribe, hp, hf, hr, hm]

/-- Connections open after applying one network event: a dial opens the
dialed socket, a close removes it, wire traffic changes nothing. -/
def applyEv (conns : List Nat) : NetEv → List Nat
  | .dial id => conns ++ [id]
  | .closeConn id => conns.erase id
  | _ => conns

/-- Largest number of simultaneously open connections along a trace,
starting from the given open set. -/
def maxOpen (conns : List Nat) : List NetEv → Nat
  | [] => conns.length
  | e :: tr => max conns.length (maxOpen (applyEv conns e) tr)

/-- Client whose stored connection (id 0) is open. -/
def stOpen : ClientState := ⟨some 0, ⟨0, 0, 0⟩⟩

/-- Transcribe environment that resolves the path, finds the file, and whose
fresh per-call dial yields connection id 1 with every step succeeding. -/
def envTx : TranscribeEnv :=
  ⟨some "/tmp/a.wav", true, ⟨true, 1, true, true, true, true, some "", 0⟩⟩

/-- C3 counterexample: with the stored connection id 0 open, a Transcribe
call performs its I/O on a freshly dialed connection id 1 while the stored
connection stays open, so two connections coexist mid-call and the I/O does
not go through the connection managed by ensureConnection/closeConnection. -/
theorem transcribe_second_connection :
    stOpen.conn = some 0
    ∧ NetEv.wireWrite 1 ∈ (Transcribe stOpen envTx).trace
    ∧ (Transcribe stOpen envTx).state.conn = some 0
    ∧ maxOpen [0] (Transcribe stOpen envTx).trace = 2 := by
  exact ⟨rfl, by decide, rfl, by decide⟩

/-- C3 (amended): TranscribeData and ListModels perform every write and read
on the single connection ensureConnection produced, the one stored handle
managed by ensureConnection/closeConnection; Transcribe instead performs all
its I/O on its fresh per-call connection and never touches the stored handle,
so while it runs the stored connection and the fresh one can be open at
once. -/
theorem connection_discipline (st : ClientState) (envS envL : SendEnv)
    (envT : TranscribeEnv) :
    (∀ i : Nat,
      (NetEv.wireWrite i ∈ (TranscribeData st envS).trace
        ∨ NetEv.wireRead i ∈ (TranscribeData st envS).trace) →
      connAfterEnsure st.conn envS = some i)
    ∧ (∀ i : Nat,
      (NetEv.wireWrite i ∈ (ListModels st envL).trace
        ∨ NetEv.wireRead i ∈ (ListModels st envL).trace) →
      connAfterEnsure st.conn envL = some i)
    ∧ (∀ i : Nat,
      (NetEv.wireWrite i ∈ (Transcribe st envT).trace
        ∨ NetEv.wireRead i ∈ (Transcribe st envT).trace) →
      i = envT.send.freshId)
    ∧ (Transcribe st envT).state.conn = st.conn := by
  refine ⟨fun i h => ?_, fun i h => ?_, fun i h => ?_, Transcribe_conn st envT⟩
  · rw [TranscribeData_trace] at h
    exact sendRequest_trace_conn st envS i h
  · rw [ListModels_trace] at h
    exact sendRequest_trace_conn st envL i h
  · exact Transcribe_trace_conn st envT i h

/-- C3 witness: the discipline at concrete runs — the TranscribeData I/O
really went through the ensured connection id 5, and the Transcribe I/O
really went through the fresh id 1. -/
theorem connection_discipline_witness :
    connAfterEnsure st0.conn envLM = some 5 ∧ 1 = envTx.send.freshId :=
  ⟨(connection_discipline st0 envLM envLM envTx).1 5 (Or.inl (by decide)),
   (connection_discipline st0 envLM envLM envTx).2.2.1 1 (Or.inl (by decide))⟩

/-- Environment whose header write fails on an otherwise healthy
connection. -/
def envWFail : SendEnv := ⟨fun _ => true, 3, false, true, true, true, some "", 0⟩

/-- C7: whenever a write or read on the established connection fails,
sendRequest closes and clears the stored connection before returning the
error, so the next call must go through the reconnect path. -/
theorem io_failure_teardown (st : ClientState) (env : SendEnv)
    (hconn : (connAfterEnsure st.conn env).isSome = true)
    (hfail : env.writeHeaderOk = false ∨ env.writeBodyOk = false
      ∨ env.readHeaderOk = false ∨ env.readBodyOk = false) :
    ((sendRequest st env).result = .error .writeFailed
      ∨ (sendRequest st env).result = .error .readFailed)
    ∧ (sendRequest st env).state.conn = none
    ∧ ∀ c, connAfterEnsure st.conn env = some c →
        NetEv.closeConn c ∈ (sendRequest st env).trace := by
  rcases hc : connAfterEnsure st.conn env with _ | cid
  · rw [hc] at hconn
    simp at hconn
  · simp only [sendRequest, hc]
    cases hwh : env.writeHeaderOk <;> cases hwb : env.writeBodyOk <;>
      cases hrh : env.readHeaderOk <;> cases hrb : env.readBodyOk <;> simp_all

/-- C7 witness: a failing header write on the open stored connection id 0
yields an I/O error, clears the connection and closes id 0. -/
theorem io_failure_teardown_witness :
    ((sendRequest stOpen envWFail).result = .error .writeFailed
      ∨ (sendRequest stOpen envWFail).result = .error .readFailed)
    ∧ (sendRequest stOpen envWFail).state.conn = none
    ∧ ∀ c, connAfterEnsure stOpen.conn envWFail = some c →
        NetEv.closeConn c ∈ (sendRequest stOpen envWFail).trace :=
  io_failure_teardown stOpen envWFail (by decide) (Or.inl rfl)

/-- C8: Transcribe resolves the input path before sending — the built request
carries the resolved absolute path verbatim — and when resolution fails or
the file does not exist it returns the error with the client state untouched
and an empty network trace, so no network I/O happens and no metric counter
moves. -/
theorem transcribe_failfast (st : ClientState) (env : TranscribeEnv)
    (h : env.absPath = none ∨ env.fileExists = false) :
    ((Transcribe st env).result = .error .absPathFailed
      ∨ (Transcribe st env).result = .error .fileNotFound)
    ∧ (Transcribe st env).state = st
    ∧ (Transcribe st env).trace = []
    ∧ ∀ p model language task,
        (buildFileRequest p model language task).audioPath = p := by
  have htriv : ∀ p model language task,
      (buildFileRequest p model language task).audioPath = p := fun _ _ _ _ => rfl
  rcases hp : env.absPath with _ | p
  · exact ⟨Or.inl (by simp [Transcribe, hp]), by simp [Transcribe, hp],
      by simp [Transcribe, hp], htriv⟩
  · have hf : env.fileExists = false := by
      rcases h with h | h
      · rw [hp] at h
        cases h
      · exact h
    exact ⟨Or.inr (by simp [Transcribe, hp, hf]), by simp [Transcribe, hp, hf],
      by simp [Transcribe, hp, hf], htriv⟩

/-- C8 witness: a failing path resolution at a concrete client. -/
theorem transcribe_failfast_witness :
    ((Transcribe st0 envAbsFail).result = .error .absPathFailed
      ∨ (Transcribe st0 envAbsFail).result = .error .fileNotFound)
    ∧ (Transcribe st0 envAbsFail).state = st0
    ∧ (Transcribe st0 envAbsFail).trace = []
    ∧ ∀ p model language task,
        (buildFileRequest p model language task).audioPath = p :=
  transcribe_failfast st0 envAbsFail (Or.inl rfl)

/-- C9: the caller's cancellation signal is consulted only at entry — a
context already done yields the context error with the state untouched and
no network trace, and a context not yet done makes the context-aware
operations literally equal to their non-context counterparts, which never
consult the context again, so later cancellation cannot affect the in-flight
call. -/
theorem context_entry_only (st : ClientState) (envT : TranscribeEnv)
    (envD : SendEnv) (d : Bool) :
    (d = true →
      TranscribeWithContext d st envT = ⟨.error .contextCanceled, st, []⟩
      ∧ TranscribeDataWithContext d st envD = ⟨.error .contextCanceled, st, []⟩)
    ∧ (d = false →
      TranscribeWithContext d st envT = Transcribe st envT
      ∧ TranscribeDataWithContext d st envD = TranscribeData st envD) := by
  constructor <;> intro hd <;> subst hd <;> exact ⟨rfl, rfl⟩

/-- C9 witness: a done context at concrete inputs returns the context error
with nothing else happening. -/
theorem context_entry_only_witness :
    TranscribeWithContext true st0 envTx = ⟨.error .contextCanceled, st0, []⟩
    ∧ TranscribeDataWithContext true st0 envLM = ⟨.error .contextCanceled, st0, []⟩ :=
  (context_entry_only st0 envTx envLM true).1 rfl

/-! ### Access serialization under concurrent callers

Two concurrent callers run one logical call each against the same client
whose connection is already established (the steady state).  Each call is
the sequence of lock actions and wire actions its sendRequest performs; a
schedule is an arbitrary interleaving of the two sequences that respects
the lock: acquiring requires the lock free, releasing requires holding it.
The wire projection of a schedule is the order in which frame bytes hit the
shared socket. -/

/-- The four wire steps of one logical call: the request header and body
writes, then the response header and body reads. -/
inductive WireAct
  | reqHeader
  | reqBody
  | respHeader
  | respBody
deriving DecidableEq

/-- One atomic action of a caller: acquire the serializer, release it, or
perform a wire step. -/
inductive Act
  | acq
  | rel
  | wire (w : WireAct)
deriving DecidableEq

/-- One step of a schedule: which of the two callers moves, and its action. -/
structure Step where
  caller : Bool
  act : Act
deriving DecidableEq

/-- Action sequence of one sendRequest call of the primary (mutex) variant
with the connection already open (whisper_client.go lines 167-222):
ensureConnection acquires connLock, sees a non-nil conn and releases it
(lines 112-117), and only then do the two writes and two reads run, outside
any lock (lines 194-218). -/
def mutexCallTrace : List Act :=
  [.acq, .rel, .wire .reqHeader, .wire .reqBody, .wire .respHeader, .wire .respBody]

/-- Action sequence of one sendRequest call of the exchange-channel variant
with the connection already open (src/unnamed/part_001 lines 102-148): the
token is taken from connLock before anything else (line 104), the deferred
send returns it only after the response is fully read (line 105), and the
two writes and two reads run while the token is held. -/
def chanCallTrace : List Act :=
  [.acq, .wire .reqHeader, .wire .reqBody, .wire .respHeader, .wire .respBody, .rel]

/-- Whether a caller may perform an action given the current lock holder. -/
def stepOk (a : Act) (holder : Option Bool) (c : Bool) : Bool :=
  match a with
  | .acq => holder == none
  | .rel => holder == some c
  | .wire _ => true

/-- Lock holder after an action by caller c. -/
def holderAfter (a : Act) (holder : Option Bool) (c : Bool) : Option Bool :=
  match a with
  | .acq => some c
  | .rel => none
  | .wire _ => holder

/-- Validity of a schedule against the two callers' remaining action
sequences and the current lock holder: each step takes the next action of
its caller, the action is permitted by the lock, and at the end both
sequences are exhausted. -/
def consume : List Step → List Act → List Act → Option Bool → Bool
  | [], t0, t1, _ => t0.isEmpty && t1.isEmpty
  | s :: rest, t0, t1, holder =>
    match s.caller, t0, t1 with
    | false, a :: t0', _ =>
      (a == s.act) && stepOk a holder false && consume rest t0' t1 (holderAfter a holder false)
    | true, _, a :: t1' =>
      (a == s.act) && stepOk a holder true && consume rest t0 t1' (holderAfter a holder true)
    | _, _, _ => false

/-- Wire bytes contributed by one action, tagged with the caller. -/
def wireTag (c : Bool) (a : Act) : List (Bool × WireAct) :=
  match a with
  | .wire w => [(c, w)]
  | _ => []

/-- The order in which the two callers' frame steps hit the shared socket. -/
def wireProj : List Step → List (Bool × WireAct)
  | [] => []
  | s :: rest => wireTag s.caller s.act ++ wireProj rest

/-- The contiguous wire footprint of one whole call by caller c: its request
frame followed by its response frame. -/
def wireBlock (c : Bool) : List (Bool × WireAct) :=
  [(c, .reqHeader), (c, .reqBody), (c, .respHeader), (c, .respBody)]

/-- The claim's non-interleaving property for two completed calls: on the
wire, one caller's request-then-response block is followed by the other's,
so each request frame is answered before the next request frame begins. -/
def serializedWire (out : List (Bool × WireAct)) : Bool :=
  (out == wireBlock false ++ wireBlock true) || (out == wireBlock true ++ wireBlock false)

/-- Exhaustive exploration of every lock-respecting interleaving: explore
returns true when every completed schedule reachable from the given
configuration has a serialized wire projection.  The fuel argument equals
the number of actions left and makes the recursion structural. -/
def explore : Nat → List Act → List Act → Option Bool → List (Bool × WireAct) → Bool
  | 0, t0, t1, _, out => if t0.isEmpty && t1.isEmpty then serializedWire out else true
  | fuel + 1, t0, t1, holder, out =>
    if t0.isEmpty && t1.isEmpty then serializedWire out
    else
      (match t0 with
       | [] => true
       | a :: t0' =>
         if stepOk a holder false then
           explore fuel t0' t1 (holderAfter a holder false) (out ++ wireTag false a)
         else true)
      && (match t1 with
          | [] => true
          | a :: t1' =>
            if stepOk a holder true then
              explore fuel t0 t1' (holderAfter a holder true) (out ++ wireTag true a)
            else true)

theorem explore_sound (sched : List Step) :
    ∀ (t0 t1 : List Act) (holder : Option Bool) (out : List (Bool × WireAct)),
    explore (t0.length + t1.length) t0 t1 holder out = true →
    consume sched t0 t1 holder = true →
    serializedWire (out ++ wireProj sched) = true := by
  induction sched with
  | nil =>
    intro t0 t1 holder out he hc
    simp only [consume, Bool.and_eq_true, List.isEmpty_iff] at hc
    rcases hc with ⟨h0, h1⟩
    subst h0
    subst h1
    simp only [List.length_nil, Nat.add_zero, explore, List.isEmpty_nil,
      Bool.and_self, if_true] at he
    simpa [wireProj] using he
  | cons s rest ih =>
    intro t0 t1 holder out he hc
    rcases s with ⟨c, sact⟩
    cases c
    · cases t0 with
      | nil => simp [consume] at hc
      | cons a t0' =>
        simp only [consume, Bool.and_eq_true, beq_iff_eq] at hc
        obtain ⟨⟨hact, hok⟩, hrest⟩ := hc
        have hlen : (a :: t0').length + t1.length = (t0'.length + t1.length) + 1 := by
          simp only [List.length_cons]
          omega
        rw [hlen] at he
        simp only [explore, List.isEmpty_cons, Bool.false_and, Bool.false_eq_true,
          if_false, Bool.and_eq_true] at he
        rw [hok, if_pos rfl] at he
        have hser := ih t0' t1 (holderAfter a holder false) (out ++ wireTag false a) he.left hrest
        subst hact
        simpa [wireProj, List.append_assoc] using hser
    · cases t1 with
      | nil => simp [consume] at hc
      | cons a t1' =>
        simp only [consume, Bool.and_eq_true, beq_iff_eq] at hc
        obtain ⟨⟨hact, hok⟩, hrest⟩ := hc
        have hlen : t0.length + (a :: t1').length = (t0.length + t1'.length) + 1 := by
          simp only [List.length_cons]
          omega
        rw [hlen] at he
        have hne : (t0.isEmpty && (a :: t1').isEmpty) = false := by
          simp [List.isEmpty_cons]
        simp only [explore, hne, Bool.false_eq_true, if_false, Bool.and_eq_true] at he
        rw [hok, if_pos rfl] at he
        have hser := ih t0 t1' (holderAfter a holder true) (out ++ wireTag true a) he.right hrest
        subst hact
        simpa [wireProj, List.append_assoc] using hser

/-- A lock-respecting schedule of two sendRequest calls of the primary
(mutex) variant in which the two request frames interleave on the wire:
both callers pass through ensureConnection's lock/unlock first, then their
writes and reads alternate. -/
def interleavedSched : List Step :=
  [⟨false, .acq⟩, ⟨false, .rel⟩, ⟨true, .acq⟩, ⟨true, .rel⟩,
   ⟨false, .wire .reqHeader⟩, ⟨true, .wire .reqHeader⟩,
   ⟨false, .wire .reqBody⟩, ⟨true, .wire .reqBody⟩,
   ⟨false, .wire .respHeader⟩, ⟨true, .wire .respHeader⟩,
   ⟨false, .wire .respBody⟩, ⟨true, .wire .respBody⟩]

/-- The fully sequential schedule of two exchange-channel calls: caller
false completes its whole call before caller true starts. -/
def serialSched : List Step :=
  [⟨false, .acq⟩, ⟨false, .wire .reqHeader⟩, ⟨false, .wire .reqBody⟩,
   ⟨false, .wire .respHeader⟩, ⟨false, .wire .respBody⟩, ⟨false, .rel⟩,
   ⟨true, .acq⟩, ⟨true, .wire .reqHeader⟩, ⟨true, .wire .reqBody⟩,
   ⟨true, .wire .respHeader⟩, ⟨true, .wire .respBody⟩, ⟨true, .rel⟩]

/-- C1 counterexample: in the primary (mutex) variant the connLock is held
only inside ensureConnection, not across the write/read sequence, so there
is a valid interleaving of two concurrent sendRequest calls whose request
frames interleave on the wire — the claimed mutual exclusion of the whole
ensure/write/read sequence fails. -/
theorem mutex_sendRequest_frames_interleave :
    consume interleavedSched mutexCallTrace mutexCallTrace none = true
    ∧ serializedWire (wireProj interleavedSched) = false := by
  exact ⟨by decide, by decide⟩

/-- C1 (amended): in the exchange-channel variant (src/unnamed/part_001) the
serializer token is held across the entire ensure/write/read sequence, so in
every lock-respecting interleaving of two concurrent calls the wire carries
one caller's complete request and response block before the other's request
frame begins; in the primary (mutex) variant the lock guards only connection
establishment and teardown, and two calls' frames can interleave. -/
theorem chan_serializer_serializes (sched : List Step)
    (h : consume sched chanCallTrace chanCallTrace none = true) :
    serializedWire (wireProj sched) = true := by
  have he : explore (chanCallTrace.length + chanCallTrace.length)
      chanCallTrace chanCallTrace none [] = true := by decide
  have hs := explore_sound sched chanCallTrace chanCallTrace none [] he h
  simpa using hs

/-- C1 witness: the sequential schedule is valid for the exchange-channel
variant and its wire projection is serialized. -/
theorem chan_serializer_serializes_witness :
    serializedWire (wireProj serialSched) = true :=
  chan_serializer_serializes serialSched (by decide)
